import Mathlib

/-!
Verification of the AIOS chat backend policy layer (`server.js`).

The definitions below are a shallow embedding of the source: the
`CHAT_CONFIG` constants, the in-memory `conversations` map with its
sliding-window truncation, the `checkDailyQuota` / `incrementDailyUsage`
quota layer, the permission resolution performed by
`GET /api/users/me/permissions` and `POST /api/organizations/join`,
the `getRelevantContext` retrieval wrapper, the document chunking loop of
`POST /api/upload-document`, and the `POST /api/chat` route handler.
External calls (Supabase reads, the embedding provider, Pinecone, the
Gemini model) are modelled as explicit inputs carrying the outcome the
service returned.
-/

namespace AIOS

/-! ### CHAT_CONFIG constants (server.js `CHAT_CONFIG`) -/

def MAX_HISTORY_GEMINI : Nat := 20
def MAX_MESSAGES_PER_CHAT : Nat := 200
def SUGGEST_NEW_CHAT_AT : Nat := 100
def WARN_LONG_CHAT_AT : Nat := 50
def MAX_CHUNK_SIZE : Nat := 8000

/-! ### Conversation turns and the in-memory `conversations` map -/

inductive Role where
  | user
  | model
deriving DecidableEq, Repr

structure Turn where
  role : Role
  text : String
deriving DecidableEq, Repr

/-- The module-level `conversations` Map: conversation id to history;
`none` models an id the map has never seen. -/
def ConvMap : Type := String → Option (List Turn)

def ConvMap.empty : ConvMap := fun _ => none

def ConvMap.get (m : ConvMap) (cid : String) : Option (List Turn) := m cid

def ConvMap.set (m : ConvMap) (cid : String) (h : List Turn) : ConvMap :=
  fun k => if k = cid then some h else m k

/-- The sliding-window truncation applied when the handler reads the
history (`history.slice(-CHAT_CONFIG.MAX_HISTORY_GEMINI)` guarded by
`history.length > CHAT_CONFIG.MAX_HISTORY_GEMINI`). `slice(-n)` keeps the
last `n` elements, i.e. drops `length - n` from the front. -/
def windowHistory (history : List Turn) : List Turn :=
  if history.length > MAX_HISTORY_GEMINI then
    history.drop (history.length - MAX_HISTORY_GEMINI)
  else history

/-! ### Document chunking (`POST /api/upload-document`) -/

/-- The chunking loop body: `for (i = 0; i < text.length; i += MAX_CHUNK_SIZE)
chunks.push(text.slice(i, i + MAX_CHUNK_SIZE))`. The `m = 0` guard is only
there to make the definition total; the source always calls it with 8000. -/
def chunkPieces (m : Nat) (text : List Char) : List (List Char) :=
  if hm : m = 0 then []
  else if ht : text = [] then []
  else text.take m :: chunkPieces m (text.drop m)
termination_by text.length
decreasing_by
  have h1 : 0 < text.length := List.length_pos.mpr ht
  have h2 : 0 < m := Nat.pos_of_ne_zero hm
  simp only [List.length_drop]
  omega

/-- `POST /api/upload-document`: if `text.length > MAX_CHUNK_SIZE` run the
chunking loop, else a single-element chunk list. -/
def chunkDocument (text : List Char) : List (List Char) :=
  if text.length > MAX_CHUNK_SIZE then chunkPieces MAX_CHUNK_SIZE text
  else [text]

/-! ### JavaScript value helpers -/

/-- JS `x || dflt` on a number-or-null: null and 0 are falsy. -/
def jsOrNat (x : Option Nat) (dflt : Nat) : Nat :=
  match x with
  | none => dflt
  | some n => if n = 0 then dflt else n

/-- JS `x || dflt` on a string-or-null: null and the empty string are falsy. -/
def jsOrStr (x : Option String) (dflt : String) : String :=
  match x with
  | none => dflt
  | some s => if s = "" then dflt else s

/-- JS truthiness of a string-or-null value (used for `if (chatId)`). -/
def jsStrTruthy (o : Option String) : Bool :=
  match o with
  | none => false
  | some s => !(s == "")

/-- JS `haystack.includes(needle)` on strings. -/
def jsIncludes (haystack needle : String) : Bool :=
  (List.range (haystack.length + 1)).any
    (fun i => ((haystack.toList.drop i).take needle.length) == needle.toList)

/-- JS `message.toLowerCase()`, character by character. -/
def jsToLower (s : String) : String :=
  String.mk (s.toList.map Char.toLower)

/-! ### RAG trigger detection (`containsSpecificEntityNames`) -/

def entityNames : List String :=
  ["pétrin", "petrin", "pétrin d\x27or", "petrin d\x27or",
   "rousseau", "antoine rousseau",
   "jean moreau", "moreau",
   "nathalie girard", "nathalie",
   "julie martin", "julie",
   "thomas durand", "thomas",
   "expertise rousseau",
   "bella vita", "tech solutions"]

def cabinetPhrases : List String :=
  ["notre cabinet", "notre équipe", "notre ca", "notre chiffre",
   "nos clients", "nos projets", "nos honoraires",
   "mon cabinet", "mon client", "mon équipe"]

def containsSpecificEntityNames (message : String) : Bool :=
  let lowerMessage := jsToLower message
  let hasEntity := entityNames.any (fun name => jsIncludes lowerMessage name)
  let hasCabinetPhrase := cabinetPhrases.any (fun phrase => jsIncludes lowerMessage phrase)
  hasEntity || hasCabinetPhrase

/-! ### Context retrieval (`getRelevantContext`) -/

/-- One Pinecone match as the source reads it (`match.metadata?.source`,
`match.metadata?.text`; `none` models an absent field or absent metadata). -/
structure MatchMeta where
  source : Option String
  text : Option String

def formatMatch (m : MatchMeta) : String :=
  "[Source: " ++ jsOrStr m.source "Unknown" ++ "]\n" ++ (m.text.getD "")

/-- `getRelevantContext`: the whole `try` block (embedding call plus
Pinecone query) is modelled by its outcome; any thrown error is caught and
yields the empty string. On success the matches are formatted and joined
with the separator. -/
def getRelevantContext (queryResult : Except Unit (List MatchMeta)) : String :=
  match queryResult with
  | Except.error _ => ""
  | Except.ok found => String.intercalate "\n\n---\n\n" (found.map formatMatch)

/-- The prompt augmentation: `enhancedMessage = message` unless the context
block is truthy (non-empty), in which case the labeled documentary-context
template is used. -/
def enhanceMessage (context message : String) : String :=
  if context = "" then message
  else
    "CONTEXTE DOCUMENTAIRE :\n" ++ context ++ "\n\n---\n\nQUESTION : " ++ message
      ++ "\n\nUtilise le contexte ci-dessus pour répondre avec précision."

/-! ### Quota layer (`checkDailyQuota`, `incrementDailyUsage`) -/

/-- The `users` row read by `checkDailyQuota`
(select `daily_message_quota, role`). -/
structure UserQuotaRow where
  daily_message_quota : Option Nat
  role : String
deriving DecidableEq, Repr

/-- What the middleware does with the request: `next()` carrying whatever
it attached to `req` (`userDbId`, `currentUsage`, `usageDate`), or a denial
response with its HTTP status and the `limit`/`used` fields of the body. -/
inductive QuotaDecision where
  | proceed (userDbId : Option String) (currentUsage : Option Nat) (usageDate : Option String)
  | deny (status : Nat) (limit : Nat) (used : Nat)
deriving DecidableEq, Repr

def QuotaDecision.allowed : QuotaDecision → Bool
  | QuotaDecision.proceed _ _ _ => true
  | QuotaDecision.deny _ _ _ => false

/-- `checkDailyQuota` middleware. `userLookup` is the outcome of the
`users` select (`none` covers both `userError` and a missing row — the
code then calls `next()` without attaching anything, commented
"Don't block on error"). `usageRow` is today's `prompts_count` for
(user, today), `none` if no row. -/
def checkDailyQuota (userId today : String) (userLookup : Option UserQuotaRow)
    (usageRow : Option Nat) : QuotaDecision :=
  match userLookup with
  | none => QuotaDecision.proceed none none none
  | some user =>
    if user.role = "admin" then QuotaDecision.proceed none none none
    else
      match user.daily_message_quota with
      | none => QuotaDecision.proceed none none none
      | some limit =>
        let currentCount := usageRow.getD 0
        if currentCount ≥ limit then QuotaDecision.deny 429 limit currentCount
        else QuotaDecision.proceed (some userId) (some currentCount) (some today)

/-- The `daily_usage` table: (user_id, date) to `prompts_count`. -/
def UsageMap : Type := String → String → Option Nat

def UsageMap.empty : UsageMap := fun _ _ => none

/-- `incrementDailyUsage`: select the (user, date) row; update
`prompts_count + 1` if it exists, else insert a row with count 1. -/
def incrementDailyUsage (m : UsageMap) (userDbId date : String) : UsageMap :=
  fun u d =>
    if u = userDbId ∧ d = date then
      match m userDbId date with
      | some existing => some (existing + 1)
      | none => some 1
    else m u d

/-! ### Permission resolution
(`GET /api/users/me/permissions`, `POST /api/organizations/join`) -/

/-- The `users` row as read by the permissions endpoint; `none` is SQL null. -/
structure UserPermRow where
  role : Option String
  can_use_rag : Option Bool
  can_upload_documents : Option Bool
  can_edit_documents : Option Bool
  can_delete_documents : Option Bool
  daily_message_quota : Option Nat
deriving DecidableEq, Repr

/-- The resolved JSON of `GET /api/users/me/permissions`. -/
structure PermissionsResponse where
  role : String
  can_use_rag : Bool
  can_upload_documents : Bool
  can_edit_documents : Bool
  can_delete_documents : Bool
  daily_message_quota : Nat
deriving DecidableEq, Repr

/-- `GET /api/users/me/permissions` response body:
`can_use_rag: userData.can_use_rag !== false`,
the other flags via `|| false`, and `daily_message_quota || 50`. -/
def getPermissionsResponse (u : UserPermRow) : PermissionsResponse :=
  { role := jsOrStr u.role "employee"
    can_use_rag := !(u.can_use_rag == some false)
    can_upload_documents := u.can_upload_documents.getD false
    can_edit_documents := u.can_edit_documents.getD false
    can_delete_documents := u.can_delete_documents.getD false
    daily_message_quota := jsOrNat u.daily_message_quota 50 }

/-- The `organizations` row read by `POST /api/organizations/join`. -/
structure OrgDefaults where
  default_can_use_rag : Option Bool
  default_can_upload_documents : Option Bool
  default_can_edit_documents : Option Bool
  default_can_delete_documents : Option Bool
  default_daily_message_quota : Option Nat
deriving DecidableEq, Repr

/-- The `defaultPermissions` object built by `POST /api/organizations/join`
with JS `??` (nullish coalescing, which keeps `false` and `0`). -/
structure JoinPermissions where
  can_use_rag : Bool
  can_upload_documents : Bool
  can_edit_documents : Bool
  can_delete_documents : Bool
  daily_message_quota : Nat
deriving DecidableEq, Repr

def joinDefaultPermissions (org : OrgDefaults) : JoinPermissions :=
  { can_use_rag := org.default_can_use_rag.getD false
    can_upload_documents := org.default_can_upload_documents.getD true
    can_edit_documents := org.default_can_edit_documents.getD false
    can_delete_documents := org.default_can_delete_documents.getD false
    daily_message_quota := org.default_daily_message_quota.getD 50 }

/-- The `users` row after `POST /api/organizations/join` for a user with no
later per-capability override: role `employee`, every capability column set
to the organization default resolved through `??`. -/
def userAfterJoin (org : OrgDefaults) : UserPermRow :=
  { role := some "employee"
    can_use_rag := some (joinDefaultPermissions org).can_use_rag
    can_upload_documents := some (joinDefaultPermissions org).can_upload_documents
    can_edit_documents := some (joinDefaultPermissions org).can_edit_documents
    can_delete_documents := some (joinDefaultPermissions org).can_delete_documents
    daily_message_quota := some (joinDefaultPermissions org).daily_message_quota }

/-- Modelled from the spec: the spec-side resolution rule for an employee
with no explicit override — "the effective value of any capability equals
the organization's default for that capability; if the organization also
lacks a default, it equals the hard-coded fallback". -/
def specEffectivePermissions (org : OrgDefaults) : JoinPermissions :=
  { can_use_rag := org.default_can_use_rag.getD false
    can_upload_documents := org.default_can_upload_documents.getD true
    can_edit_documents := org.default_can_edit_documents.getD false
    can_delete_documents := org.default_can_delete_documents.getD false
    daily_message_quota := org.default_daily_message_quota.getD 50 }

/-! ### The `POST /api/chat` route handler -/

/-- The `users` row read by the in-handler RAG permission check
(select `can_use_rag, role`). -/
structure RagRow where
  can_use_rag : Option Bool
  role : String
deriving DecidableEq, Repr

/-- The in-handler denial condition
`user && user.role !== 'admin' && !user.can_use_rag`
(a failed lookup, `user` null, does not deny). -/
def ragDenied (u : Option RagRow) : Bool :=
  match u with
  | none => false
  | some row => decide (row.role ≠ "admin") && !(row.can_use_rag.getD false)

/-- The request body of `POST /api/chat` (defaults already applied:
`conversationId = 'default'`, `forceRAG = false`, `chatId = null`;
a missing `message` is modelled by the empty string, which is equally
falsy for the `if (!message)` check). -/
structure ChatReqBody where
  message : String
  conversationId : String
  forceRAG : Bool
  chatId : Option String
deriving DecidableEq, Repr

/-- Outcomes of the external calls the handler awaits:
the `messages` count for `chatId`, the `users` row for the RAG check,
the embedding+Pinecone outcome consumed by `getRelevantContext`,
the Gemini `chat.sendMessage` outcome, and whether the fire-and-forget
`incrementDailyUsage` call fails internally (its failure is caught and
logged inside that function). -/
structure ChatEnv where
  messageCount : Option Nat
  ragUser : Option RagRow
  retrieval : Except Unit (List MatchMeta)
  modelReply : Except Unit String
  incrementFails : Bool

/-- The advisory notice (`uiMessage`) attached to long chats. -/
structure UiMessage where
  type : String
  count : Nat
deriving DecidableEq, Repr

/-- The two soft-threshold notices, computed only when `chatId` is truthy
and after the hard-cap check has passed. -/
def computeUiMessage (chatId : Option String) (messageCount : Option Nat) : Option UiMessage :=
  if jsStrTruthy chatId = true then
    let mc := messageCount.getD 0
    if SUGGEST_NEW_CHAT_AT ≤ mc ∧ mc < SUGGEST_NEW_CHAT_AT + 2 then
      some { type := "warning", count := mc }
    else if WARN_LONG_CHAT_AT ≤ mc ∧ mc < WARN_LONG_CHAT_AT + 2 then
      some { type := "info", count := mc }
    else none
  else none

/-- Everything observable about one handled request: the HTTP status, the
`error` code string, the response fields, the new process state, and what
was handed to the model (`sentHistory`/`sentMessage` are `some` exactly
when `model.startChat`/`chat.sendMessage` were reached). -/
structure ChatResult where
  status : Nat
  error : Option String
  response : Option String
  hasContext : Option Bool
  uiMessage : Option UiMessage
  conversations : ConvMap
  usage : UsageMap
  modelInvoked : Bool
  sentHistory : Option (List Turn)
  sentMessage : Option String

/-- The `POST /api/chat` handler body (after the middleware chain), with
`userDbId`/`usageDate` being what `checkDailyQuota` attached to `req`. -/
def chatHandler (req : ChatReqBody) (userDbId usageDate : Option String)
    (env : ChatEnv) (convs : ConvMap) (usage : UsageMap) : ChatResult :=
  if req.message = "" then
    { status := 400, error := some "Message requis", response := none, hasContext := none,
      uiMessage := none, conversations := convs, usage := usage,
      modelInvoked := false, sentHistory := none, sentMessage := none }
  else if jsStrTruthy req.chatId = true ∧ MAX_MESSAGES_PER_CHAT ≤ env.messageCount.getD 0 then
    { status := 400, error := some "chat_limit_reached", response := none, hasContext := none,
      uiMessage := none, conversations := convs, usage := usage,
      modelInvoked := false, sentHistory := none, sentMessage := none }
  else
    let uiMessage := computeUiMessage req.chatId env.messageCount
    let history := windowHistory ((ConvMap.get convs req.conversationId).getD [])
    let trigger := req.forceRAG || containsSpecificEntityNames req.message
    if trigger = true ∧ ragDenied env.ragUser = true then
      { status := 403, error := some "Accès RAG désactivé pour votre compte", response := none,
        hasContext := none, uiMessage := none, conversations := convs, usage := usage,
        modelInvoked := false, sentHistory := none, sentMessage := none }
    else
      let context := if trigger = true then getRelevantContext env.retrieval else ""
      let enhancedMessage := enhanceMessage context req.message
      match env.modelReply with
      | Except.error _ =>
        { status := 500, error := some "Erreur serveur", response := none, hasContext := none,
          uiMessage := none, conversations := convs, usage := usage,
          modelInvoked := true, sentHistory := some history, sentMessage := some enhancedMessage }
      | Except.ok aiResponse =>
        let newHistory := history ++
          [{ role := Role.user, text := req.message }, { role := Role.model, text := aiResponse }]
        let convs2 := ConvMap.set convs req.conversationId newHistory
        let usage2 :=
          match userDbId, usageDate with
          | some uid, some d =>
            if env.incrementFails then usage else incrementDailyUsage usage uid d
          | _, _ => usage
        { status := 200, error := none, response := some aiResponse,
          hasContext := some (!(context == "")), uiMessage := uiMessage,
          conversations := convs2, usage := usage2,
          modelInvoked := true, sentHistory := some history, sentMessage := some enhancedMessage }

/-- The full route `app.post('/api/chat', authenticateUser, checkDailyQuota,
handler)` after authentication: run the quota middleware against the
current `daily_usage` state, then the handler with whatever the middleware
attached. `userRow` is the outcome of the middleware's `users` select. -/
def chatPipeline (userId today : String) (req : ChatReqBody)
    (userRow : Option UserQuotaRow) (env : ChatEnv)
    (convs : ConvMap) (usage : UsageMap) : ChatResult :=
  match checkDailyQuota userId today userRow (usage userId today) with
  | QuotaDecision.deny status limit used =>
    { status := status, error := some "Quota journalier atteint", response := none,
      hasContext := none, uiMessage := none, conversations := convs, usage := usage,
      modelInvoked := false, sentHistory := none, sentMessage := none }
  | QuotaDecision.proceed userDbId _currentUsage usageDate =>
    chatHandler req userDbId usageDate env convs usage

/-! ### Iterated chat turns (for the sliding-window invariant) -/

/-- The two turns one successful request appends. -/
def pairTurns (p : String × String) : List Turn :=
  [{ role := Role.user, text := p.1 }, { role := Role.model, text := p.2 }]

/-- The stored-history update one successful chat turn performs on a
conversation: window on read, then push the user message and the reply. -/
def chatStep (s : List Turn) (p : String × String) : List Turn :=
  windowHistory s ++ pairTurns p

/-- All turns appended by a list of (user message, model reply) requests. -/
def turnsOf (pairs : List (String × String)) : List Turn :=
  (pairs.map pairTurns).flatten

/-- The stored history of a fresh conversation after the given requests. -/
def storedAfterTurns (pairs : List (String × String)) : List Turn :=
  pairs.foldl chatStep []

/-- Run a sequence of chat requests through the full pipeline: plain
messages (no `chatId`, no `forceRAG`), retrieval failing, the model
replying successfully each time. -/
def runChatTurns (userId today : String) (userRow : Option UserQuotaRow) (cid : String)
    (pairs : List (String × String)) (convs : ConvMap) (usage : UsageMap) :
    ConvMap × UsageMap :=
  match pairs with
  | [] => (convs, usage)
  | p :: ps =>
    let r := chatPipeline userId today
      { message := p.1, conversationId := cid, forceRAG := false, chatId := none }
      userRow
      { messageCount := none, ragUser := none, retrieval := Except.error (),
        modelReply := Except.ok p.2, incrementFails := false }
      convs usage
    runChatTurns userId today userRow cid ps r.conversations r.usage

/-! ## Helper lemmas -/

theorem chunkPieces_nil (m : Nat) : chunkPieces m [] = [] := by
  rw [chunkPieces]
  split
  · rfl
  · rw [dif_pos rfl]

theorem chunkPieces_cons (m : Nat) (hm : m ≠ 0) (text : List Char) (ht : text ≠ []) :
    chunkPieces m text = text.take m :: chunkPieces m (text.drop m) := by
  conv_lhs => rw [chunkPieces]
  rw [dif_neg hm, dif_neg ht]

theorem chunkPieces_flatten (m : Nat) (hm : m ≠ 0) :
    ∀ (n : Nat) (text : List Char), text.length ≤ n → (chunkPieces m text).flatten = text := by
  intro n
  induction n with
  | zero =>
    intro text h
    have ht : text = [] := List.length_eq_zero.mp (Nat.le_zero.mp h)
    subst ht
    simp [chunkPieces_nil]
  | succ n ih =>
    intro text h
    by_cases ht : text = []
    · subst ht; simp [chunkPieces_nil]
    · rw [chunkPieces_cons m hm text ht, List.flatten_cons,
        ih (text.drop m) (by simp only [List.length_drop]; omega)]
      exact List.take_append_drop m text

theorem chunkPieces_mem_length (m : Nat) (hm : m ≠ 0) :
    ∀ (n : Nat) (text : List Char), text.length ≤ n →
      ∀ c ∈ chunkPieces m text, c.length ≤ m := by
  intro n
  induction n with
  | zero =>
    intro text h c hc
    have ht : text = [] := List.length_eq_zero.mp (Nat.le_zero.mp h)
    subst ht
    simp [chunkPieces_nil] at hc
  | succ n ih =>
    intro text h c hc
    by_cases ht : text = []
    · subst ht; simp [chunkPieces_nil] at hc
    · rw [chunkPieces_cons m hm text ht] at hc
      rcases List.mem_cons.mp hc with h1 | h2
      · subst h1
        rw [List.length_take]
        exact Nat.min_le_left _ _
      · exact ih (text.drop m) (by simp only [List.length_drop]; omega) c h2

theorem windowHistory_length_le (s : List Turn) :
    (windowHistory s).length ≤ MAX_HISTORY_GEMINI := by
  unfold windowHistory
  split
  · simp only [List.length_drop]
    omega
  · omega

theorem ConvMap.get_set_same (m : ConvMap) (cid : String) (h : List Turn) :
    ConvMap.get (ConvMap.set m cid h) cid = some h := by
  simp [ConvMap.get, ConvMap.set]

/-- One successful turn started from a suffix-of-`T` state lands on the
corresponding suffix of `T` extended by the new pair of turns. -/
theorem chatStep_drop (T : List Turn) (p : String × String) :
    chatStep (T.drop (T.length - (MAX_HISTORY_GEMINI + 2))) p
      = (T ++ pairTurns p).drop ((T ++ pairTurns p).length - (MAX_HISTORY_GEMINI + 2)) := by
  have hp : (pairTurns p).length = 2 := rfl
  unfold chatStep windowHistory MAX_HISTORY_GEMINI
  simp only [List.length_drop, List.length_append, hp]
  by_cases hL : T.length ≤ 20
  · rw [if_neg (by omega)]
    have h0 : T.length - (20 + 2) = 0 := by omega
    have h1 : T.length + 2 - (20 + 2) = 0 := by omega
    rw [h0, h1, List.drop_zero, List.drop_zero]
  · rw [if_pos (by omega)]
    rw [List.drop_drop]
    rw [List.drop_append_of_le_length (by omega)]
    have harg : T.length + 2 - (20 + 2)
        = (T.length - (20 + 2)) + (T.length - (T.length - (20 + 2)) - 20) := by omega
    rw [harg]

theorem turnsOf_length (pairs : List (String × String)) :
    (turnsOf pairs).length = 2 * pairs.length := by
  induction pairs with
  | nil => rfl
  | cons p ps ih =>
    simp only [turnsOf, List.map_cons, List.flatten_cons, List.length_append,
      List.length_cons] at ih ⊢
    simp only [pairTurns, List.length_cons, List.length_nil]
    omega

/-- The stored history after any number of successful turns is the trailing
`MAX_HISTORY_GEMINI + 2` turns of everything appended so far (all of them
while fewer have accumulated, thanks to truncated subtraction). -/
theorem storedAfterTurns_eq (pairs : List (String × String)) :
    storedAfterTurns pairs
      = (turnsOf pairs).drop ((turnsOf pairs).length - (MAX_HISTORY_GEMINI + 2)) := by
  induction pairs using List.reverseRecOn with
  | nil => simp [storedAfterTurns, turnsOf]
  | append_singleton ps p ih =>
    have h1 : storedAfterTurns (ps ++ [p]) = chatStep (storedAfterTurns ps) p := by
      simp [storedAfterTurns, List.foldl_append]
    have h2 : turnsOf (ps ++ [p]) = turnsOf ps ++ pairTurns p := by
      simp [turnsOf]
    rw [h1, ih, chatStep_drop, h2]

/-- One plain successful request through the full pipeline: the stored
history for the conversation id is windowed and extended by the two new
turns, and (no usage context was attached) the usage store is unchanged. -/
theorem chatPipeline_step (userId today cid : String) (p : String × String) (hp : p.1 ≠ "")
    (convs : ConvMap) (us : UsageMap) :
    (chatPipeline userId today
        { message := p.1, conversationId := cid, forceRAG := false, chatId := none }
        none
        { messageCount := none, ragUser := none, retrieval := Except.error (),
          modelReply := Except.ok p.2, incrementFails := false }
        convs us).conversations
      = ConvMap.set convs cid (chatStep ((ConvMap.get convs cid).getD []) p)
    ∧ (chatPipeline userId today
        { message := p.1, conversationId := cid, forceRAG := false, chatId := none }
        none
        { messageCount := none, ragUser := none, retrieval := Except.error (),
          modelReply := Except.ok p.2, incrementFails := false }
        convs us).usage = us := by
  constructor <;>
    simp [chatPipeline, checkDailyQuota, chatHandler, hp, jsStrTruthy, ragDenied,
      getRelevantContext, chatStep, pairTurns]

theorem runChatTurns_stored (userId today cid : String) :
    ∀ (pairs : List (String × String)), (∀ p ∈ pairs, p.1 ≠ "") →
      ∀ (convs : ConvMap) (us : UsageMap),
      (ConvMap.get (runChatTurns userId today none cid pairs convs us).1 cid).getD []
        = pairs.foldl chatStep ((ConvMap.get convs cid).getD []) := by
  intro pairs
  induction pairs with
  | nil => intro _ convs us; rfl
  | cons p ps ih =>
    intro h convs us
    have hp : p.1 ≠ "" := h p (List.mem_cons_self p ps)
    have hps : ∀ q ∈ ps, q.1 ≠ "" := fun q hq => h q (List.mem_cons_of_mem p hq)
    rw [runChatTurns, ih hps, List.foldl_cons,
      (chatPipeline_step userId today cid p hp convs us).1, ConvMap.get_set_same]
    rfl

/-- The handler hands a history to `model.startChat` only in the invoking
branches, and there it is always the windowed read of the stored history. -/
theorem chatHandler_sentHistory (req : ChatReqBody) (udb ud : Option String)
    (env : ChatEnv) (convs : ConvMap) (us : UsageMap) :
    (chatHandler req udb ud env convs us).sentHistory = none
    ∨ (chatHandler req udb ud env convs us).sentHistory
        = some (windowHistory ((ConvMap.get convs req.conversationId).getD [])) := by
  unfold chatHandler
  by_cases h1 : req.message = ""
  · simp [h1]
  · by_cases h2 : jsStrTruthy req.chatId = true ∧ MAX_MESSAGES_PER_CHAT ≤ env.messageCount.getD 0
    · simp [h1, h2]
    · by_cases h3 : (req.forceRAG = true ∨ containsSpecificEntityNames req.message = true)
          ∧ ragDenied env.ragUser = true
      · simp [h1, h2, h3]
      · cases hm : env.modelReply with
        | error e => simp [h1, h2, h3, hm]
        | ok r => simp [h1, h2, h3, hm]

/-- Branch bookkeeping for the handler: it never answers 429 itself; with
no attached `userDbId` the usage store is untouched; and when the model
call fails the usage store is untouched and the status is not 200. -/
theorem chatHandler_cases (req : ChatReqBody) (udb ud : Option String) (env : ChatEnv)
    (convs : ConvMap) (us : UsageMap) :
    (chatHandler req udb ud env convs us).status ≠ 429
    ∧ (udb = none → (chatHandler req udb ud env convs us).usage = us)
    ∧ (env.modelReply = Except.error () →
        (chatHandler req udb ud env convs us).usage = us
        ∧ (chatHandler req udb ud env convs us).status ≠ 200) := by
  by_cases h1 : req.message = ""
  · simp [chatHandler, h1]
  · by_cases h2 : jsStrTruthy req.chatId = true ∧ MAX_MESSAGES_PER_CHAT ≤ env.messageCount.getD 0
    · simp [chatHandler, h1, h2]
    · by_cases h3 : (req.forceRAG = true ∨ containsSpecificEntityNames req.message = true)
          ∧ ragDenied env.ragUser = true
      · simp [chatHandler, h1, h2, h3]
      · cases hm : env.modelReply with
        | error e => simp [chatHandler, h1, h2, h3, hm]
        | ok r =>
          refine ⟨by simp [chatHandler, h1, h2, h3, hm], ?_, ?_⟩
          · intro hu
            subst hu
            simp [chatHandler, h1, h2, h3, hm]
          · intro herr
            simp [hm] at herr

/-- `checkDailyQuota` only ever denies with HTTP status 429. -/
theorem checkDailyQuota_deny (userId today : String) (ul : Option UserQuotaRow)
    (ur : Option Nat) (s l u : Nat)
    (h : checkDailyQuota userId today ul ur = QuotaDecision.deny s l u) : s = 429 := by
  cases ul with
  | none => simp [checkDailyQuota] at h
  | some user =>
    by_cases hr : user.role = "admin"
    · simp [checkDailyQuota, hr] at h
    · cases hq : user.daily_message_quota with
      | none => simp [checkDailyQuota, hr, hq] at h
      | some L =>
        by_cases hu : ur.getD 0 ≥ L
        · simp [checkDailyQuota, hr, hq, hu] at h
          exact h.1.symm
        · simp [checkDailyQuota, hr, hq, hu] at h

/-- The augmentation template strictly lengthens the message, so a
non-empty context always changes the outbound prompt. -/
theorem enhanceMessage_ne (c m : String) (hc : c ≠ "") : enhanceMessage c m ≠ m := by
  intro heq
  have hpos : (0 : Nat) < ("CONTEXTE DOCUMENTAIRE :\n" : String).length := by decide
  have hlen := congrArg String.length heq
  rw [enhanceMessage, if_neg hc, String.length_append, String.length_append,
    String.length_append, String.length_append] at hlen
  omega

/-! ## Claim theorems -/

/-- C9: `chunk(text, 8000)` yields ordered contiguous non-overlapping
slices, each of length at most 8000, concatenating back to the original
text; a text of length at most 8000 yields a single-element sequence; a
20000-character input yields exactly 3 chunks of lengths 8000, 8000, 4000. -/
theorem C9_chunking (text : List Char) :
    (∀ c ∈ chunkDocument text, c.length ≤ MAX_CHUNK_SIZE)
    ∧ (chunkDocument text).flatten = text
    ∧ (text.length ≤ MAX_CHUNK_SIZE → chunkDocument text = [text])
    ∧ (text.length = 20000 → (chunkDocument text).map List.length = [8000, 8000, 4000]) := by
  have hm : (MAX_CHUNK_SIZE : Nat) ≠ 0 := by decide
  refine ⟨?_, ?_, ?_, ?_⟩
  · intro c hc
    by_cases h : text.length > MAX_CHUNK_SIZE
    · rw [chunkDocument, if_pos h] at hc
      exact chunkPieces_mem_length MAX_CHUNK_SIZE hm text.length text le_rfl c hc
    · rw [chunkDocument, if_neg h] at hc
      simp only [List.mem_singleton] at hc
      subst hc
      omega
  · by_cases h : text.length > MAX_CHUNK_SIZE
    · rw [chunkDocument, if_pos h]
      exact chunkPieces_flatten MAX_CHUNK_SIZE hm text.length text le_rfl
    · rw [chunkDocument, if_neg h]
      simp
  · intro hle
    rw [chunkDocument, if_neg (by omega)]
  · intro h20
    have hgt : text.length > MAX_CHUNK_SIZE := by rw [h20]; decide
    rw [chunkDocument, if_pos hgt]
    have ht1 : text ≠ [] := by
      intro he; rw [he] at h20; simp at h20
    rw [chunkPieces_cons _ hm _ ht1]
    have hlen1 : (text.drop MAX_CHUNK_SIZE).length = 12000 := by
      simp [List.length_drop, h20, MAX_CHUNK_SIZE]
    have ht2 : text.drop MAX_CHUNK_SIZE ≠ [] := by
      intro he; rw [he] at hlen1; simp at hlen1
    rw [chunkPieces_cons _ hm _ ht2]
    have hlen2 : ((text.drop MAX_CHUNK_SIZE).drop MAX_CHUNK_SIZE).length = 4000 := by
      simp only [List.length_drop, MAX_CHUNK_SIZE]
      omega
    have ht3 : (text.drop MAX_CHUNK_SIZE).drop MAX_CHUNK_SIZE ≠ [] := by
      intro he; rw [he] at hlen2; simp at hlen2
    rw [chunkPieces_cons _ hm _ ht3]
    have hlen3 : (((text.drop MAX_CHUNK_SIZE).drop MAX_CHUNK_SIZE).drop MAX_CHUNK_SIZE).length = 0 := by
      simp only [List.length_drop, MAX_CHUNK_SIZE]
      omega
    rw [List.length_eq_zero.mp hlen3, chunkPieces_nil]
    simp only [List.map_cons, List.map_nil, List.length_take, hlen1, hlen2, h20]
    simp only [MAX_CHUNK_SIZE]
    decide

/-- C1 counterexample: the claim says that once more than
`MAX_HISTORY_GEMINI = 20` turns have been appended, the history stored in
the conversations map has length exactly 20. After 11 successful requests
(22 appended turns) on a fresh conversation the stored history has length
22 = `MAX_HISTORY_GEMINI + 2`, because the handler truncates on read and
then pushes two more turns before storing. -/
theorem C1_counterexample :
    ((ConvMap.get (runChatTurns "u" "2026-02-03" none "default"
        (List.replicate 11 ("m", "r")) ConvMap.empty UsageMap.empty).1 "default").getD
        []).length = MAX_HISTORY_GEMINI + 2
    ∧ ¬ (((ConvMap.get (runChatTurns "u" "2026-02-03" none "default"
        (List.replicate 11 ("m", "r")) ConvMap.empty UsageMap.empty).1 "default").getD
        []).length = MAX_HISTORY_GEMINI) := by
  decide

/-- C1 amended: for every conversation id, after any sequence of successful
chat turns (nonempty messages), the stored history is exactly the trailing
`min(N, MAX_HISTORY_GEMINI + 2)` of the `N` appended turns in original
order; in particular once `N ≥ MAX_HISTORY_GEMINI + 2` its length is
exactly `MAX_HISTORY_GEMINI + 2 = 22`, not `MAX_HISTORY_GEMINI`. -/
theorem C1_amended (cid : String) (pairs : List (String × String))
    (hmsg : ∀ p ∈ pairs, p.1 ≠ "") :
    (ConvMap.get (runChatTurns "u" "2026-02-03" none cid pairs
        ConvMap.empty UsageMap.empty).1 cid).getD []
      = (turnsOf pairs).drop ((turnsOf pairs).length - (MAX_HISTORY_GEMINI + 2))
    ∧ (MAX_HISTORY_GEMINI + 2 ≤ 2 * pairs.length →
        ((ConvMap.get (runChatTurns "u" "2026-02-03" none cid pairs
            ConvMap.empty UsageMap.empty).1 cid).getD []).length
          = MAX_HISTORY_GEMINI + 2) := by
  have h1 := runChatTurns_stored "u" "2026-02-03" cid pairs hmsg ConvMap.empty UsageMap.empty
  have h2 : (ConvMap.get ConvMap.empty cid).getD [] = ([] : List Turn) := rfl
  rw [h2] at h1
  have h3 : pairs.foldl chatStep [] = storedAfterTurns pairs := rfl
  rw [h3] at h1
  constructor
  · rw [h1]
    exact storedAfterTurns_eq pairs
  · intro hN
    rw [h1, storedAfterTurns_eq pairs, List.length_drop, turnsOf_length]
    omega

/-- C1 amended witness: eleven concrete successful turns leave exactly the
last 22 turns stored. -/
theorem C1_amended_witness :
    ((ConvMap.get (runChatTurns "u" "2026-02-03" none "c11"
        (List.replicate 11 ("hello", "world")) ConvMap.empty UsageMap.empty).1 "c11").getD
        []).length = MAX_HISTORY_GEMINI + 2 :=
  (C1_amended "c11" (List.replicate 11 ("hello", "world")) (by decide)).2 (by decide)

/-- C2: on every chat turn, whatever history has accumulated in the store,
the history handed to `model.startChat` is the result of the sliding-window
truncation applied to the stored history as read, and therefore never
holds more than `MAX_HISTORY_GEMINI = 20` prior turns. -/
theorem C2_window_before_model (userId today : String) (req : ChatReqBody)
    (userRow : Option UserQuotaRow) (env : ChatEnv) (convs : ConvMap) (us : UsageMap)
    (hist : List Turn)
    (h : (chatPipeline userId today req userRow env convs us).sentHistory = some hist) :
    hist = windowHistory ((ConvMap.get convs req.conversationId).getD [])
    ∧ hist.length ≤ MAX_HISTORY_GEMINI := by
  unfold chatPipeline at h
  cases hq : checkDailyQuota userId today userRow (us userId today) with
  | deny s l u =>
    rw [hq] at h
    simp at h
  | proceed udb cu ud =>
    rw [hq] at h
    simp only [] at h
    rcases chatHandler_sentHistory req udb ud env convs us with h0 | h0
    · rw [h0] at h
      simp at h
    · rw [h0] at h
      injection h with h
      subst h
      exact ⟨rfl, windowHistory_length_le _⟩

/-- C2 witness: a store holding 30 turns is truncated to the last 20 before
the model call. -/
theorem C2_window_before_model_witness :
    List.replicate 20 (Turn.mk Role.user "x")
      = windowHistory ((ConvMap.get
          (ConvMap.set ConvMap.empty "c" (List.replicate 30 (Turn.mk Role.user "x"))) "c").getD [])
    ∧ (List.replicate 20 (Turn.mk Role.user "x")).length ≤ MAX_HISTORY_GEMINI :=
  C2_window_before_model "u" "2026-02-03"
    { message := "hi", conversationId := "c", forceRAG := false, chatId := none }
    none
    { messageCount := none, ragUser := none, retrieval := Except.error (),
      modelReply := Except.ok "r", incrementFails := false }
    (ConvMap.set ConvMap.empty "c" (List.replicate 30 (Turn.mk Role.user "x")))
    UsageMap.empty
    (List.replicate 20 (Turn.mk Role.user "x"))
    (by decide)

/-- C9 witness: the 20000-character case at a concrete input. -/
theorem C9_chunking_witness :
    (chunkDocument (List.replicate 20000 'a')).map List.length = [8000, 8000, 4000] :=
  (C9_chunking (List.replicate 20000 'a')).2.2.2 (List.length_replicate 20000 'a')

/-- C3 counterexample: for an organization whose default daily quota is 0,
the join endpoint stores 0 on the user row (`??` keeps 0), but the
permissions endpoint resolves the effective quota with `|| 50` and reports
50, not the organization's default 0. -/
theorem C3_counterexample :
    ({ default_can_use_rag := none, default_can_upload_documents := none,
       default_can_edit_documents := none, default_can_delete_documents := none,
       default_daily_message_quota := some 0 } : OrgDefaults).default_daily_message_quota
      = some 0
    ∧ (getPermissionsResponse (userAfterJoin
        { default_can_use_rag := none, default_can_upload_documents := none,
          default_can_edit_documents := none, default_can_delete_documents := none,
          default_daily_message_quota := some 0 })).daily_message_quota = 50
    ∧ ¬ ((getPermissionsResponse (userAfterJoin
        { default_can_use_rag := none, default_can_upload_documents := none,
          default_can_edit_documents := none, default_can_delete_documents := none,
          default_daily_message_quota := some 0 })).daily_message_quota = 0) := by
  decide

/-- C3 amended: for an employee with no explicit override, each effective
Boolean capability equals the organization default when present and the
hard-coded fallback otherwise (exactly the spec-side resolution), and the
effective daily quota does too — except that an organization default quota
of 0 resolves to the fallback 50, because the permissions endpoint uses a
JS truthiness check. Resolution is total: every field is a concrete value. -/
theorem C3_amended (org : OrgDefaults) :
    (getPermissionsResponse (userAfterJoin org)).can_use_rag
      = (specEffectivePermissions org).can_use_rag
    ∧ (getPermissionsResponse (userAfterJoin org)).can_upload_documents
      = (specEffectivePermissions org).can_upload_documents
    ∧ (getPermissionsResponse (userAfterJoin org)).can_edit_documents
      = (specEffectivePermissions org).can_edit_documents
    ∧ (getPermissionsResponse (userAfterJoin org)).can_delete_documents
      = (specEffectivePermissions org).can_delete_documents
    ∧ (∀ q : Nat, org.default_daily_message_quota = some q → q ≠ 0 →
        (getPermissionsResponse (userAfterJoin org)).daily_message_quota
          = (specEffectivePermissions org).daily_message_quota)
    ∧ ((org.default_daily_message_quota = none ∨ org.default_daily_message_quota = some 0) →
        (getPermissionsResponse (userAfterJoin org)).daily_message_quota = 50) := by
  obtain ⟨rag, up, ed, de, q⟩ := org
  refine ⟨?_, ?_, ?_, ?_, ?_, ?_⟩
  · rcases rag with _ | b
    · simp [getPermissionsResponse, userAfterJoin, joinDefaultPermissions,
        specEffectivePermissions]
    · cases b <;>
        simp [getPermissionsResponse, userAfterJoin, joinDefaultPermissions,
          specEffectivePermissions]
  · simp [getPermissionsResponse, userAfterJoin, joinDefaultPermissions,
      specEffectivePermissions]
  · simp [getPermissionsResponse, userAfterJoin, joinDefaultPermissions,
      specEffectivePermissions]
  · simp [getPermissionsResponse, userAfterJoin, joinDefaultPermissions,
      specEffectivePermissions]
  · intro q' hq hne
    simp only at hq
    subst hq
    simp [getPermissionsResponse, userAfterJoin, joinDefaultPermissions,
      specEffectivePermissions, jsOrNat, hne]
  · intro h
    rcases h with h | h <;> simp only at h <;> subst h <;>
      simp [getPermissionsResponse, userAfterJoin, joinDefaultPermissions,
        specEffectivePermissions, jsOrNat]

/-- C3 amended witness: a concrete organization with a nonzero default
quota resolves exactly to the spec-side resolution. -/
theorem C3_amended_witness :
    (getPermissionsResponse (userAfterJoin
      { default_can_use_rag := some true, default_can_upload_documents := some false,
        default_can_edit_documents := some true, default_can_delete_documents := none,
        default_daily_message_quota := some 7 })).daily_message_quota
    = (specEffectivePermissions
      { default_can_use_rag := some true, default_can_upload_documents := some false,
        default_can_edit_documents := some true, default_can_delete_documents := none,
        default_daily_message_quota := some 7 }).daily_message_quota :=
  (C3_amended
    { default_can_use_rag := some true, default_can_upload_documents := some false,
      default_can_edit_documents := some true, default_can_delete_documents := none,
      default_daily_message_quota := some 7 }).2.2.2.2.1 7 rfl (by decide)

/-- C4: for a non-admin user with a non-null daily quota `L` and today's
usage count `U` (0 when no row exists), `checkDailyQuota` allows the
request iff `U < L`; a denial is exactly status 429 carrying the limit and
the used count; an admin or a null quota always proceeds. -/
theorem C4_quota_check (userId today : String) (row : UserQuotaRow) (usageRow : Option Nat) :
    (∀ L : Nat, row.role ≠ "admin" → row.daily_message_quota = some L →
      ((checkDailyQuota userId today (some row) usageRow).allowed = true ↔ usageRow.getD 0 < L)
      ∧ (L ≤ usageRow.getD 0 →
          checkDailyQuota userId today (some row) usageRow
            = QuotaDecision.deny 429 L (usageRow.getD 0)))
    ∧ ((row.role = "admin" ∨ row.daily_message_quota = none) →
        checkDailyQuota userId today (some row) usageRow
          = QuotaDecision.proceed none none none) := by
  constructor
  · intro L hrole hq
    constructor
    · by_cases hu : usageRow.getD 0 ≥ L
      · simp [checkDailyQuota, hrole, hq, hu, QuotaDecision.allowed]
        try omega
      · simp [checkDailyQuota, hrole, hq, hu, QuotaDecision.allowed]
        try omega
    · intro hge
      simp [checkDailyQuota, hrole, hq, hge]
  · intro h
    rcases h with h | h
    · simp [checkDailyQuota, h]
    · by_cases hr : row.role = "admin"
      · simp [checkDailyQuota, hr]
      · simp [checkDailyQuota, hr, h]

/-- C4 witness: limit 5, used 3 is allowed; limit 5, used 5 is denied with
429 carrying limit and used; an admin row always proceeds. -/
theorem C4_quota_check_witness :
    (checkDailyQuota "u" "2026-02-03"
        (some { daily_message_quota := some 5, role := "employee" }) (some 3)).allowed = true
    ∧ checkDailyQuota "u" "2026-02-03"
        (some { daily_message_quota := some 5, role := "employee" }) (some 5)
      = QuotaDecision.deny 429 5 5
    ∧ checkDailyQuota "u" "2026-02-03"
        (some { daily_message_quota := some 9, role := "admin" }) (some 3)
      = QuotaDecision.proceed none none none :=
  ⟨((C4_quota_check "u" "2026-02-03" { daily_message_quota := some 5, role := "employee" }
      (some 3)).1 5 (by decide) rfl).1.mpr (by decide),
   ((C4_quota_check "u" "2026-02-03" { daily_message_quota := some 5, role := "employee" }
      (some 5)).1 5 (by decide) rfl).2 (by decide),
   (C4_quota_check "u" "2026-02-03" { daily_message_quota := some 9, role := "admin" }
      (some 3)).2 (Or.inl rfl)⟩

/-- C5 counterexample: when the user record cannot be loaded during the
quota check (and even with 99 prompts already used today), the middleware
proceeds instead of rejecting, and a full chat request with a failing user
lookup completes with status 200 — missing state is treated as granted. -/
theorem C5_counterexample :
    (checkDailyQuota "u" "2026-02-03" none (some 99)).allowed = true
    ∧ checkDailyQuota "u" "2026-02-03" none (some 99) = QuotaDecision.proceed none none none
    ∧ (chatPipeline "u" "2026-02-03"
        { message := "hi", conversationId := "c", forceRAG := false, chatId := none }
        none
        { messageCount := none, ragUser := none, retrieval := Except.error (),
          modelReply := Except.ok "r", incrementFails := false }
        ConvMap.empty UsageMap.empty).status = 200 := by
  refine ⟨rfl, rfl, by decide⟩

/-- C5 amended: if the user record cannot be loaded during the quota check,
the request is deliberately not rejected ("Don't block on error"):
`checkDailyQuota` proceeds without attaching any usage context, the chat
turn is never denied with 429, and no usage is recorded for it. -/
theorem C5_amended (userId today : String) (usageRow : Option Nat)
    (req : ChatReqBody) (env : ChatEnv) (convs : ConvMap) (us : UsageMap) :
    checkDailyQuota userId today none usageRow = QuotaDecision.proceed none none none
    ∧ (chatPipeline userId today req none env convs us).status ≠ 429
    ∧ (chatPipeline userId today req none env convs us).usage = us := by
  refine ⟨rfl, ?_, ?_⟩
  · simp only [chatPipeline, checkDailyQuota]
    exact (chatHandler_cases req none none env convs us).1
  · simp only [chatPipeline, checkDailyQuota]
    exact (chatHandler_cases req none none env convs us).2.1 rfl

/-- C6: `incrementDailyUsage` is an upsert (absent row becomes 1, existing
row is incremented, nothing else changes); after a model invocation failure
the usage state is unchanged and the request does not succeed; and an
internal failure of the increment changes neither the status nor the
response of the chat request. -/
theorem C6_usage_tracking :
    (∀ (m : UsageMap) (uid d : String),
        incrementDailyUsage m uid d uid d = some ((m uid d).getD 0 + 1))
    ∧ (∀ (m : UsageMap) (uid d u' d' : String), ¬(u' = uid ∧ d' = d) →
        incrementDailyUsage m uid d u' d' = m u' d')
    ∧ (∀ (userId today : String) (req : ChatReqBody) (userRow : Option UserQuotaRow)
        (env : ChatEnv) (convs : ConvMap) (us : UsageMap),
        env.modelReply = Except.error () →
          (chatPipeline userId today req userRow env convs us).usage = us
          ∧ (chatPipeline userId today req userRow env convs us).status ≠ 200)
    ∧ (∀ (userId today : String) (req : ChatReqBody) (userRow : Option UserQuotaRow)
        (env : ChatEnv) (convs : ConvMap) (us : UsageMap) (b : Bool),
        (chatPipeline userId today req userRow
            { env with incrementFails := b } convs us).status
          = (chatPipeline userId today req userRow
              { env with incrementFails := false } convs us).status
        ∧ (chatPipeline userId today req userRow
            { env with incrementFails := b } convs us).response
          = (chatPipeline userId today req userRow
              { env with incrementFails := false } convs us).response) := by
  refine ⟨?_, ?_, ?_, ?_⟩
  · intro m uid d
    cases hm : m uid d <;> simp [incrementDailyUsage, hm]
  · intro m uid d u' d' h
    simp [incrementDailyUsage, h]
  · intro userId today req userRow env convs us herr
    cases hq : checkDailyQuota userId today userRow (us userId today) with
    | deny s l u =>
      have hs : s = 429 := checkDailyQuota_deny userId today userRow (us userId today) s l u hq
      subst hs
      simp [chatPipeline, hq]
    | proceed udb cu ud =>
      simp only [chatPipeline, hq]
      exact (chatHandler_cases req udb ud env convs us).2.2 herr
  · intro userId today req userRow env convs us b
    cases hq : checkDailyQuota userId today userRow (us userId today) with
    | deny s l u => simp [chatPipeline, hq]
    | proceed udb cu ud =>
      simp only [chatPipeline, hq]
      by_cases h1 : req.message = ""
      · simp [chatHandler, h1]
      · by_cases h2 : jsStrTruthy req.chatId = true
            ∧ MAX_MESSAGES_PER_CHAT ≤ env.messageCount.getD 0
        · simp [chatHandler, h1, h2]
        · by_cases h3 : (req.forceRAG = true ∨ containsSpecificEntityNames req.message = true)
              ∧ ragDenied env.ragUser = true
          · simp [chatHandler, h1, h2, h3]
          · cases hm : env.modelReply with
            | error e => simp [chatHandler, h1, h2, h3, hm]
            | ok r => simp [chatHandler, h1, h2, h3, hm]

/-- C6 witness: concrete upsert behaviour (fresh row is 1, other keys are
untouched), and a concrete request with a failing model invocation leaves
usage unchanged and does not return 200. -/
theorem C6_usage_tracking_witness :
    incrementDailyUsage UsageMap.empty "u" "2026-02-03" "u" "2026-02-03" = some 1
    ∧ incrementDailyUsage UsageMap.empty "u" "2026-02-03" "v" "2026-02-03"
      = UsageMap.empty "v" "2026-02-03"
    ∧ (chatPipeline "u" "2026-02-03"
        { message := "hi", conversationId := "c", forceRAG := false, chatId := none }
        none
        { messageCount := none, ragUser := none, retrieval := Except.error (),
          modelReply := Except.error (), incrementFails := false }
        ConvMap.empty UsageMap.empty).usage = UsageMap.empty :=
  ⟨C6_usage_tracking.1 UsageMap.empty "u" "2026-02-03",
   C6_usage_tracking.2.1 UsageMap.empty "u" "2026-02-03" "v" "2026-02-03" (by decide),
   (C6_usage_tracking.2.2.1 "u" "2026-02-03"
      { message := "hi", conversationId := "c", forceRAG := false, chatId := none }
      none
      { messageCount := none, ragUser := none, retrieval := Except.error (),
        modelReply := Except.error (), incrementFails := false }
      ConvMap.empty UsageMap.empty rfl).1⟩

/-- C7: a chat request (non-empty message, quota middleware passing) that
carries a chatId whose persisted message count has reached
`MAX_MESSAGES_PER_CHAT = 200` is rejected with status 400 and the distinct
error code string `chat_limit_reached`, and the model is never invoked. -/
theorem C7_chat_limit (userId today : String) (req : ChatReqBody)
    (userRow : Option UserQuotaRow) (env : ChatEnv) (convs : ConvMap) (us : UsageMap)
    (cid : String) (n : Nat)
    (hq : (checkDailyQuota userId today userRow (us userId today)).allowed = true)
    (hmsg : req.message ≠ "") (hcid : req.chatId = some cid) (hc : cid ≠ "")
    (hn : env.messageCount = some n) (hcap : MAX_MESSAGES_PER_CHAT ≤ n) :
    (chatPipeline userId today req userRow env convs us).status = 400
    ∧ (chatPipeline userId today req userRow env convs us).error = some "chat_limit_reached"
    ∧ (chatPipeline userId today req userRow env convs us).modelInvoked = false
    ∧ (chatPipeline userId today req userRow env convs us).conversations = convs := by
  cases hqd : checkDailyQuota userId today userRow (us userId today) with
  | deny s l u =>
    rw [hqd] at hq
    simp [QuotaDecision.allowed] at hq
  | proceed udb cu ud =>
    simp only [chatPipeline, hqd]
    have hcond : jsStrTruthy req.chatId = true
        ∧ MAX_MESSAGES_PER_CHAT ≤ env.messageCount.getD 0 := by
      constructor
      · rw [hcid]
        simp [jsStrTruthy, hc]
      · rw [hn]
        simpa using hcap
    simp [chatHandler, hmsg, hcond]

/-- C7 witness: a concrete request against a chat with exactly 200
persisted messages. -/
theorem C7_chat_limit_witness :
    (chatPipeline "u" "2026-02-03"
        { message := "hi", conversationId := "c", forceRAG := false, chatId := some "chat1" }
        none
        { messageCount := some 200, ragUser := none, retrieval := Except.error (),
          modelReply := Except.ok "r", incrementFails := false }
        ConvMap.empty UsageMap.empty).status = 400
    ∧ (chatPipeline "u" "2026-02-03"
        { message := "hi", conversationId := "c", forceRAG := false, chatId := some "chat1" }
        none
        { messageCount := some 200, ragUser := none, retrieval := Except.error (),
          modelReply := Except.ok "r", incrementFails := false }
        ConvMap.empty UsageMap.empty).error = some "chat_limit_reached"
    ∧ (chatPipeline "u" "2026-02-03"
        { message := "hi", conversationId := "c", forceRAG := false, chatId := some "chat1" }
        none
        { messageCount := some 200, ragUser := none, retrieval := Except.error (),
          modelReply := Except.ok "r", incrementFails := false }
        ConvMap.empty UsageMap.empty).modelInvoked = false :=
  ⟨(C7_chat_limit "u" "2026-02-03"
      { message := "hi", conversationId := "c", forceRAG := false, chatId := some "chat1" }
      none
      { messageCount := some 200, ragUser := none, retrieval := Except.error (),
        modelReply := Except.ok "r", incrementFails := false }
      ConvMap.empty UsageMap.empty "chat1" 200
      (by decide) (by decide) rfl (by decide) rfl (by decide)).1,
   (C7_chat_limit "u" "2026-02-03"
      { message := "hi", conversationId := "c", forceRAG := false, chatId := some "chat1" }
      none
      { messageCount := some 200, ragUser := none, retrieval := Except.error (),
        modelReply := Except.ok "r", incrementFails := false }
      ConvMap.empty UsageMap.empty "chat1" 200
      (by decide) (by decide) rfl (by decide) rfl (by decide)).2.1,
   (C7_chat_limit "u" "2026-02-03"
      { message := "hi", conversationId := "c", forceRAG := false, chatId := some "chat1" }
      none
      { messageCount := some 200, ragUser := none, retrieval := Except.error (),
        modelReply := Except.ok "r", incrementFails := false }
      ConvMap.empty UsageMap.empty "chat1" 200
      (by decide) (by decide) rfl (by decide) rfl (by decide)).2.2.1⟩

/-- C8: when embedding or the vector query fails, `getRelevantContext`
returns the empty string; the chat turn then proceeds with the raw
unaugmented message and still returns 200 with `hasContext = false`;
and the outbound prompt is the labeled documentary-context augmentation
iff the context block is non-empty (an empty context leaves the message
untouched, a non-empty context always changes it). -/
theorem C8_retrieval_failure (req : ChatReqBody) (udb ud : Option String) (env : ChatEnv)
    (convs : ConvMap) (us : UsageMap) (reply : String)
    (hmsg : req.message ≠ "")
    (hlimit : ¬(jsStrTruthy req.chatId = true ∧ MAX_MESSAGES_PER_CHAT ≤ env.messageCount.getD 0))
    (hrag : ¬((req.forceRAG = true ∨ containsSpecificEntityNames req.message = true)
        ∧ ragDenied env.ragUser = true))
    (hretr : env.retrieval = Except.error ())
    (hmodel : env.modelReply = Except.ok reply) :
    getRelevantContext env.retrieval = ""
    ∧ (chatHandler req udb ud env convs us).status = 200
    ∧ (chatHandler req udb ud env convs us).sentMessage = some req.message
    ∧ (chatHandler req udb ud env convs us).hasContext = some false
    ∧ (∀ message : String, enhanceMessage "" message = message)
    ∧ (∀ context message : String, context ≠ "" → enhanceMessage context message ≠ message) := by
  refine ⟨?_, ?_, ?_, ?_, fun message => rfl, enhanceMessage_ne⟩ <;>
    simp [chatHandler, hmsg, hlimit, hrag, hretr, hmodel, getRelevantContext, enhanceMessage]

/-- C8 witness: a concrete forced-RAG request with a failing embedding
call succeeds with the raw message and no context. -/
theorem C8_retrieval_failure_witness :
    (chatHandler
        { message := "hello", conversationId := "c", forceRAG := true, chatId := none }
        none none
        { messageCount := none, ragUser := none, retrieval := Except.error (),
          modelReply := Except.ok "resp", incrementFails := false }
        ConvMap.empty UsageMap.empty).status = 200
    ∧ (chatHandler
        { message := "hello", conversationId := "c", forceRAG := true, chatId := none }
        none none
        { messageCount := none, ragUser := none, retrieval := Except.error (),
          modelReply := Except.ok "resp", incrementFails := false }
        ConvMap.empty UsageMap.empty).sentMessage = some "hello" :=
  ⟨((C8_retrieval_failure
      { message := "hello", conversationId := "c", forceRAG := true, chatId := none }
      none none
      { messageCount := none, ragUser := none, retrieval := Except.error (),
        modelReply := Except.ok "resp", incrementFails := false }
      ConvMap.empty UsageMap.empty "resp"
      (by decide) (by decide) (by decide) rfl rfl).2.1),
   ((C8_retrieval_failure
      { message := "hello", conversationId := "c", forceRAG := true, chatId := none }
      none none
      { messageCount := none, ragUser := none, retrieval := Except.error (),
        modelReply := Except.ok "resp", incrementFails := false }
      ConvMap.empty UsageMap.empty "resp"
      (by decide) (by decide) (by decide) rfl rfl).2.2.1)⟩

/-- C10: for a user whose quota row has role admin or a null quota, the
quota middleware proceeds without attaching any usage context, and a chat
request through the full pipeline leaves the daily usage state unchanged —
`incrementDailyUsage` is never reached for that request. -/
theorem C10_admin_no_usage (userId today : String) (req : ChatReqBody) (row : UserQuotaRow)
    (env : ChatEnv) (convs : ConvMap) (us : UsageMap)
    (h : row.role = "admin" ∨ row.daily_message_quota = none) :
    checkDailyQuota userId today (some row) (us userId today)
      = QuotaDecision.proceed none none none
    ∧ (chatPipeline userId today req (some row) env convs us).usage = us := by
  have hq : checkDailyQuota userId today (some row) (us userId today)
      = QuotaDecision.proceed none none none := by
    rcases h with h | h
    · simp [checkDailyQuota, h]
    · by_cases hr : row.role = "admin"
      · simp [checkDailyQuota, hr]
      · simp [checkDailyQuota, hr, h]
  refine ⟨hq, ?_⟩
  simp only [chatPipeline, hq]
  exact (chatHandler_cases req none none env convs us).2.1 rfl

/-- C10 witness: a successful admin chat request leaves the usage store
untouched. -/
theorem C10_admin_no_usage_witness :
    (chatPipeline "u" "2026-02-03"
        { message := "hi", conversationId := "c", forceRAG := false, chatId := none }
        (some { daily_message_quota := some 9, role := "admin" })
        { messageCount := none, ragUser := none, retrieval := Except.error (),
          modelReply := Except.ok "r", incrementFails := false }
        ConvMap.empty UsageMap.empty).usage = UsageMap.empty :=
  (C10_admin_no_usage "u" "2026-02-03"
    { message := "hi", conversationId := "c", forceRAG := false, chatId := none }
    { daily_message_quota := some 9, role := "admin" }
    { messageCount := none, ragUser := none, retrieval := Except.error (),
      modelReply := Except.ok "r", incrementFails := false }
    ConvMap.empty UsageMap.empty (Or.inl rfl)).2

end AIOS
